import Mathlib

namespace Tzdb

/-!
Verification development for the time-zone backend bridge (tzdb.cpp).

The source resolves calendar and time-zone queries against the ICU backend:
it computes sys-info records (offset, save, rule interval, abbreviation) for a
system instant, classifies local instants near DST transition boundaries
(unique, ambiguous, nonexistent), builds the zone and link registry, manages
the lazy one-time ICU function-table binding, and reads leap-second data from
the Windows registry.

Instants in the source are ICU UDate values (doubles holding integral
millisecond counts).  Every quantity manipulated by the functions modelled
here (epoch milliseconds between U_DATE_MIN = -8.64e15 and
U_DATE_MAX = 8.64e15, 32-bit offsets, the one-day constant) is an integer of
magnitude below 2^53, on which IEEE double arithmetic for the additions,
subtractions and comparisons performed by the source is exact; the embedding
therefore uses Int for instants and offsets.
-/

/-- Sentinel U_DATE_MIN from ICU: no previous transition exists. -/
def U_DATE_MIN : Int := -8640000000000000

/-- Sentinel U_DATE_MAX from ICU: no next transition exists. -/
def U_DATE_MAX : Int := 8640000000000000

/-- Constant U_MILLIS_PER_DAY from ICU, the one-day window used by
__std_tzbd_get_local_info. -/
def U_MILLIS_PER_DAY : Int := 86400000

/-- Facts the ICU backend reports about one zone at one instant: the answers
to ucal_inDaylightTime, ucal_get(UCAL_DST_OFFSET), ucal_get(UCAL_ZONE_OFFSET),
ucal_getTimeZoneTransitionDate (previous-inclusive and next, none meaning the
call returned false), and the two display names. -/
structure IcuAt where
  inDaylight : Bool
  dstOffset : Int
  zoneOffset : Int
  prevTransition : Option Int
  nextTransition : Option Int
  nameStd : String
  nameDst : String

/-- Abstract ICU backend for the success path: a calendar context opened for
one zone, queried at an instant set by ucal_setMillis. -/
structure IcuBackend where
  query : Int → IcuAt

/-- Record __std_tzdb_sys_data: begin, end, offset, save, abbrev.  The field
names end and abbrev are Lean keywords, hence end_ and abbrev_.  The abbrev
pointer is modelled as Option String, none standing for nullptr (the
zero-initialized state of the _Second member of __std_tzbd_local_info). -/
structure SysData where
  begin : Int
  end_ : Int
  offset : Int
  save : Int
  abbrev_ : Option String
deriving DecidableEq, Repr

/-- Function _Get_sys_time (tzdb.cpp lines 263-318), success path.  Mirrors
the source statement for statement: the daylight branch computes
offset = ZONE_OFFSET + DST_OFFSET, the other branch offset = ZONE_OFFSET and
save = 0; then lines 282-284 unconditionally re-read UCAL_DST_OFFSET into
save, overwriting the branch value; begin and end fall back to the sentinels
when no transition exists; the display variant is chosen by save == 0. -/
def _Get_sys_time (B : IcuBackend) (sys : Int) : SysData :=
  let q := B.query sys
  let offset := if q.inDaylight then q.zoneOffset + q.dstOffset else q.zoneOffset
  let save := q.dstOffset
  let b := q.prevTransition.getD U_DATE_MIN
  let e := q.nextTransition.getD U_DATE_MAX
  let ab := if save = 0 then q.nameStd else q.nameDst
  ⟨b, e, offset, save, some ab⟩

/-- Values of _CHRONO local_info stored into _Info->_Result. -/
inductive LKind where
  | unique
  | ambiguous
  | nonexistent
deriving DecidableEq, Repr

/-- Result of __std_tzbd_get_local_info: the classification, the two sys-data
slots after the swaps the source performs, and the number of _Get_sys_time
calls made after the initial one (for the query-count claim). -/
structure LocalData where
  result : LKind
  first : SysData
  second : SysData
  extraQueries : Nat
deriving DecidableEq, Repr

/-- Classification of tzdb.cpp lines 516-541: the near-begin branch.  Takes
the first candidate, the fetched previous-rule data, the local instant and
curr_sys; returns (_Result, _First, _Second) after the swaps. -/
def classifyBegin (first second : SysData) (localInstant currSys : Int) :
    LKind × SysData × SysData :=
  let T := first.begin
  let prevSys := localInstant - second.offset
  if currSys ≥ T then
    if prevSys < T then (LKind.ambiguous, second, first)
    else (LKind.unique, first, second)
  else
    if prevSys ≥ T then (LKind.nonexistent, second, first)
    else (LKind.unique, second, first)

/-- Classification of tzdb.cpp lines 548-571: the near-end branch. -/
def classifyEnd (first second : SysData) (localInstant currSys : Int) :
    LKind × SysData × SysData :=
  let T := first.end_
  let nextSys := localInstant - second.offset
  if currSys < T then
    if nextSys ≥ T then (LKind.ambiguous, first, second)
    else (LKind.unique, first, second)
  else
    if nextSys < T then (LKind.nonexistent, first, second)
    else (LKind.unique, second, first)

/-- Zero-initialized __std_tzdb_sys_data, the state of _Info->_Second when no
boundary consultation takes place (value-initialization of the info struct). -/
def emptySysData : SysData := ⟨0, 0, 0, 0, none⟩

/-- Function __std_tzbd_get_local_info (tzdb.cpp lines 487-578), success
path.  Computes the first candidate by treating the local instant as a system
instant, then consults the previous rule when within one day past the rule
begin, else the next rule when within one day before the rule end, else
reports unique with the second slot left zero-initialized. -/
def __std_tzbd_get_local_info (B : IcuBackend) (localInstant : Int) : LocalData :=
  let first := _Get_sys_time B localInstant
  let currSys := localInstant - first.offset
  if first.begin ≠ U_DATE_MIN ∧ currSys < first.begin + U_MILLIS_PER_DAY then
    let second := _Get_sys_time B (first.begin - 1)
    let r := classifyBegin first second localInstant currSys
    ⟨r.1, r.2.1, r.2.2, 1⟩
  else if first.end_ ≠ U_DATE_MAX ∧ currSys > first.end_ - U_MILLIS_PER_DAY then
    let second := _Get_sys_time B (first.end_ + 1)
    let r := classifyEnd first second localInstant currSys
    ⟨r.1, r.2.1, r.2.2, 1⟩
  else
    ⟨LKind.unique, first, emptySysData, 0⟩

/-- Backend with a single transition at instant 0: standard time with zero
offset after the transition, daylight time with offset 3600000 before it. -/
def backendB1 : IcuBackend :=
  ⟨fun t =>
    if t < 0 then ⟨true, 3600000, 0, none, some 0, "STD", "DST"⟩
    else ⟨false, 0, 0, some 0, none, "STD", "DST"⟩⟩

/-- Backend with a single transition at instant 0: offset 500 before, offset
-500 after, all standard time. -/
def backendB2 : IcuBackend :=
  ⟨fun t =>
    if t < 0 then ⟨false, 0, 500, none, some 0, "BEF", "BEFD"⟩
    else ⟨false, 0, -500, some 0, none, "AFT", "AFTD"⟩⟩

/-- Backend reporting standard time (inDaylight false) together with a
nonzero daylight-offset component, plus no transitions in either direction. -/
def backendB3 : IcuBackend :=
  ⟨fun _ => ⟨false, 3600000, -28800000, none, none, "PST", "PDT"⟩⟩

/-- Backend with no transitions at all: one rule for all time. -/
def backendB4 : IcuBackend :=
  ⟨fun _ => ⟨false, 0, 0, none, none, "UTC", "UTCD"⟩⟩

/-- Backend with a single transition at instant 0: offset 500 before, offset
0 after, all standard time. -/
def backendB5 : IcuBackend :=
  ⟨fun t =>
    if t < 0 then ⟨false, 0, 500, none, some 0, "P", "PD"⟩
    else ⟨false, 0, 0, some 0, none, "C", "CD"⟩⟩

/-! Lazy binding lifecycle: the _Icu_api_level state machine of
_Acquire_icu_functions and _Init_icu_functions (tzdb.cpp lines 21-26 and
56-106). -/

/-- States of the atomic _Api_level cell (tzdb.cpp lines 21-26). -/
inductive _Icu_api_level where
  | __not_set
  | __detecting
  | __has_failed
  | __has_icu_addresses
deriving DecidableEq, Repr

/-- Numeric value of the enum, used for the ordered comparisons the source
performs on _Icu_api_level. -/
def levelNat : _Icu_api_level → Nat
  | _Icu_api_level.__not_set => 0
  | _Icu_api_level.__detecting => 1
  | _Icu_api_level.__has_failed => 2
  | _Icu_api_level.__has_icu_addresses => 3

/-- Observable outcome of one _Acquire_icu_functions call in the sequential
model: the returned level, the value of the atomic cell afterwards, and
whether the LoadLibraryExW-and-GetProcAddress pass ran during the call. -/
structure AcqRes where
  ret : _Icu_api_level
  state : _Icu_api_level
  attemptedLoad : Bool
deriving DecidableEq, Repr

/-- Function _Init_icu_functions (tzdb.cpp lines 58-97) in the sequential
model: with no concurrent writer the compare-exchange from the level just
loaded succeeds at once, the library load runs, and the resulting level
(failed, or has-icu-addresses when every symbol resolved) is published.  The
load outcome is an oracle Bool. -/
def _Init_icu_functions (outcome : Bool) : AcqRes :=
  let lv := if outcome then _Icu_api_level.__has_icu_addresses
            else _Icu_api_level.__has_failed
  ⟨lv, lv, true⟩

/-- Function _Acquire_icu_functions (tzdb.cpp lines 99-106): load the level;
when it is at most __detecting call _Init_icu_functions, otherwise return the
stored level at once. -/
def _Acquire_icu_functions (s : _Icu_api_level) (outcome : Bool) : AcqRes :=
  if levelNat s ≤ levelNat _Icu_api_level.__detecting then _Init_icu_functions outcome
  else ⟨s, s, false⟩

/-- Cell state after one acquire call, for iterating calls. -/
def acquireState (s : _Icu_api_level) (outcome : Bool) : _Icu_api_level :=
  (_Acquire_icu_functions s outcome).state

/-! Concurrent first use: an interleaving model of two threads running
_Acquire_icu_functions from the initial state, sequentially consistent (the
weaker orderings of the source only admit more behaviours). -/

/-- Program counter of one thread inside _Acquire_icu_functions and the
compare-exchange loop of _Init_icu_functions. -/
inductive TPh where
  | start
  | casLoop
  | load
  | done
deriving DecidableEq, Repr

/-- One thread: its program counter and its local _Level variable (the
expected value handed to compare_exchange_weak, updated on CAS failure). -/
structure Thr where
  ph : TPh
  expected : _Icu_api_level
deriving DecidableEq, Repr

/-- Shared-memory configuration: the atomic _Api_level cell, two threads,
and how many times the library-load-and-symbol-resolution pass has run. -/
structure IcuSystem where
  shared : _Icu_api_level
  t1 : Thr
  t2 : Thr
  loadCount : Nat
deriving DecidableEq, Repr

/-- One atomic step of a thread.  start: the acquire-load of the level and
the branch of _Acquire_icu_functions (tzdb.cpp lines 100-103).  casLoop: one
compare_exchange_weak of the init loop (lines 59-63): on success the thread
proceeds to the load; on failure the expected value becomes the current
level, and the thread returns it when it is above __detecting, else retries.
load: the LoadLibraryExW pass plus the release-store of the result (lines
65-96), taken here to resolve every symbol. -/
def stepThread (sh : _Icu_api_level) (t : Thr) (lc : Nat) :
    _Icu_api_level × Thr × Nat :=
  match t.ph with
  | TPh.start =>
      if levelNat sh ≤ levelNat _Icu_api_level.__detecting then
        (sh, ⟨TPh.casLoop, sh⟩, lc)
      else (sh, ⟨TPh.done, t.expected⟩, lc)
  | TPh.casLoop =>
      if sh = t.expected then (_Icu_api_level.__detecting, ⟨TPh.load, t.expected⟩, lc)
      else if levelNat sh > levelNat _Icu_api_level.__detecting then
        (sh, ⟨TPh.done, sh⟩, lc)
      else (sh, ⟨TPh.casLoop, sh⟩, lc)
  | TPh.load =>
      (_Icu_api_level.__has_icu_addresses,
        ⟨TPh.done, _Icu_api_level.__has_icu_addresses⟩, lc + 1)
  | TPh.done => (sh, t, lc)

/-- Scheduler step: true runs thread 1, false runs thread 2. -/
def stepSys (s : IcuSystem) (which : Bool) : IcuSystem :=
  if which then
    let r := stepThread s.shared s.t1 s.loadCount
    ⟨r.1, r.2.1, s.t2, r.2.2⟩
  else
    let r := stepThread s.shared s.t2 s.loadCount
    ⟨r.1, s.t1, r.2.1, r.2.2⟩

/-- Run a finite schedule. -/
def runSched (s : IcuSystem) (sched : List Bool) : IcuSystem :=
  sched.foldl stepSys s

/-- Initial configuration: cell at __not_set, both threads entering
_Acquire_icu_functions. -/
def icuInit : IcuSystem :=
  ⟨_Icu_api_level.__not_set, ⟨TPh.start, _Icu_api_level.__not_set⟩,
    ⟨TPh.start, _Icu_api_level.__not_set⟩, 0⟩

/-! Leap-second registry fetch: __std_tzdb_get_reg_leap_seconds
(tzdb.cpp lines 589-633). -/

/-- Status of one RegQueryValueExW call that the source distinguishes:
ERROR_SUCCESS, ERROR_MORE_DATA, or any other failure code. -/
inductive LStatus where
  | success
  | moreData
  | failed
deriving DecidableEq, Repr

/-- Environment oracle for one __std_tzdb_get_reg_leap_seconds call:
whether RegOpenKeyExW succeeds, the status and reported byte size of the
sizing RegQueryValueExW, whether the array allocation succeeds, and whether
the data-reading RegQueryValueExW succeeds. -/
structure RegEnv where
  openOk : Bool
  sizeStatus : LStatus
  byteSize : Nat
  allocOk : Bool
  readOk : Bool
deriving DecidableEq, Repr

/-- Observable result: the value stored through current_reg_ls_size and the
returned array (none for nullptr, some n for an array of n entries). -/
structure RegResult where
  currentSize : Nat
  data : Option Nat
deriving DecidableEq, Repr

/-- Function __std_tzdb_get_reg_leap_seconds (tzdb.cpp lines 589-633).  The
byte size is taken as written by the sizing query only when that query
reported ERROR_SUCCESS or ERROR_MORE_DATA (the source initializes byte_size
to 0 and a failing RegQueryValueExW does not write it); ls_size is
byte_size / 12; when the sizing query did not fail and ls_size exceeds the
previously known count, the array is allocated (a std::bad_alloc is caught,
leaving the null array and ls_size in current_reg_ls_size) and the data is
read, a failing read resetting current_reg_ls_size to 0 while the allocated
array is still returned. -/
def __std_tzdb_get_reg_leap_seconds (env : RegEnv) (prev : Nat) : RegResult :=
  if ¬env.openOk then ⟨0, none⟩
  else
    let byteSize := match env.sizeStatus with
      | LStatus.failed => 0
      | _ => env.byteSize
    let ls := byteSize / 12
    if env.sizeStatus ≠ LStatus.failed ∧ ls > prev then
      if ¬env.allocOk then ⟨ls, none⟩
      else if env.readOk then ⟨ls, some ls⟩
      else ⟨0, some ls⟩
    else ⟨ls, none⟩

/-- State one of the spec contract: no new data. -/
abbrev regNoNewData (r : RegResult) (prev : Nat) : Prop :=
  r.currentSize ≤ prev ∧ r.data = none

/-- State two of the spec contract: new data read successfully. -/
abbrev regNewDataRead (r : RegResult) (prev : Nat) : Prop :=
  r.currentSize > prev ∧ r.data ≠ none

/-- State three of the spec contract: new data exists but the read failed,
signalled by a zero count together with a returned array. -/
abbrev regReadFailed (r : RegResult) : Prop :=
  r.currentSize = 0 ∧ r.data ≠ none

/-- Fourth state, present in the source (comment at tzdb.cpp line 595) but
absent from the spec contract: new data exists but the array allocation
failed, signalled by a count above the known one with a null array. -/
abbrev regAllocFailed (r : RegResult) (prev : Nat) : Prop :=
  r.currentSize > prev ∧ r.data = none

/-! Error-propagation layer: the public entry points with their allocation
and backend outcomes made explicit as oracles, mirroring the control flow of
tzdb.cpp lines 187-260 (string conversion and calendar opening), 263-318
(_Get_sys_time with errors), and the four exported functions. -/

/-- Error codes __std_tzdb_error stored in the _Err field of every result. -/
inductive __std_tzdb_error where
  | _Success
  | _Win_error
  | _Icu_error
deriving DecidableEq, Repr

/-- Outcome oracle for one _Allocate_wide_to_narrow or
_Allocate_narrow_to_wide call: a conversion failure (either of the two
__std_fs_convert calls), a failure of the operator-new allocation between
them, or success with the produced string. -/
inductive WNOutcome where
  | convFail
  | allocFail
  | ok (s : String)
deriving DecidableEq, Repr

/-- Function _Allocate_wide_to_narrow (tzdb.cpp lines 187-214; lines 216-243
are the mirror-image narrow-to-wide conversion with the same observable
behaviour): a conversion failure stores _Win_error into the caller's error
cell and returns null; an allocation failure returns null leaving the cell
untouched; success returns the string. -/
def _Allocate_wide_to_narrow (o : WNOutcome) (e : __std_tzdb_error) :
    Option String × __std_tzdb_error :=
  match o with
  | WNOutcome.convFail => (none, __std_tzdb_error._Win_error)
  | WNOutcome.allocFail => (none, e)
  | WNOutcome.ok s => (some s, e)

/-- Outcome oracle for one _Get_cal call: failure inside the
narrow-to-wide conversion (conversion error or allocation error), failure of
ucal_open (which per the backend contract returns a null handle with an ICU
failure code), or an open calendar context. -/
inductive CalOutcome where
  | nwConvFail
  | nwAllocFail
  | openFail
  | ok
deriving DecidableEq, Repr

/-- Function _Get_cal (tzdb.cpp lines 245-260): the Bool is whether the
returned calendar handle is non-null; the error cell is updated exactly as
the source does (conversion failure leaves _Win_error, allocation failure
leaves the cell untouched, ucal_open failure leaves _Icu_error). -/
def _Get_cal (o : CalOutcome) (e : __std_tzdb_error) :
    Bool × __std_tzdb_error :=
  match o with
  | CalOutcome.nwConvFail => (false, __std_tzdb_error._Win_error)
  | CalOutcome.nwAllocFail => (false, e)
  | CalOutcome.openFail => (false, __std_tzdb_error._Icu_error)
  | CalOutcome.ok => (true, e)

/-- Outcome oracle for one errorful _Get_sys_time call: an ICU call failed;
the abbreviation allocation failed after the numeric fields d were written;
the abbreviation wide-to-narrow conversion failed after d was written; or
full success with data d. -/
inductive GSTO where
  | icuFail
  | abbrevAllocFail (d : SysData)
  | abbrevConvFail (d : SysData)
  | ok (d : SysData)
deriving DecidableEq, Repr

/-- Function _Get_sys_time (tzdb.cpp lines 263-318) with its error paths:
returns (returned-bool, error cell after the call, data written).  An ICU
failure stores _Icu_error and returns false.  An abbreviation allocation
failure returns false only when the caller's error cell held _Success (the
null-abbrev check at line 306 tests the accumulated cell, so with an earlier
error recorded the function still returns true); an abbreviation conversion
failure stores _Win_error yet returns true, because the final U_FAILURE
check at line 312 only consults the ICU status. -/
def _Get_sys_time_run (o : GSTO) (e : __std_tzdb_error) :
    Bool × __std_tzdb_error × SysData :=
  match o with
  | GSTO.icuFail => (false, __std_tzdb_error._Icu_error, emptySysData)
  | GSTO.abbrevAllocFail d =>
      if e = __std_tzdb_error._Success then (false, e, { d with abbrev_ := none })
      else (true, e, { d with abbrev_ := none })
  | GSTO.abbrevConvFail d =>
      (true, __std_tzdb_error._Win_error, { d with abbrev_ := none })
  | GSTO.ok d => (true, e, d)

/-- Oracle for one __std_tzbd_get_sys_info call. -/
structure SysInfoOracle where
  infoAlloc : Bool
  cal : CalOutcome
  gst : GSTO
deriving Repr

/-- Function __std_tzbd_get_sys_info (tzdb.cpp lines 456-478): result is
(returned pointer as Option of the released info, the final error cell
value).  Null is returned when the info allocation fails, or when a callee
failed while the error cell still held _Success (the bad_alloc convention);
otherwise the populated info is released. -/
def __std_tzbd_get_sys_info (oc : SysInfoOracle) :
    Option (__std_tzdb_error × SysData) × __std_tzdb_error :=
  if ¬oc.infoAlloc then (none, __std_tzdb_error._Success)
  else
    let c := _Get_cal oc.cal __std_tzdb_error._Success
    if c.1 = false then
      if c.2 ≠ __std_tzdb_error._Success then (some (c.2, emptySysData), c.2)
      else (none, c.2)
    else
      let g := _Get_sys_time_run oc.gst c.2
      if g.1 = false then
        if g.2.1 ≠ __std_tzdb_error._Success then (some (g.2.1, g.2.2), g.2.1)
        else (none, g.2.1)
      else (some (g.2.1, g.2.2), g.2.1)

/-- Oracle for one __std_tzbd_get_local_info call. -/
structure LocalOracle where
  infoAlloc : Bool
  cal : CalOutcome
  gst1 : GSTO
  gst2 : GSTO
  localInstant : Int
deriving Repr

/-- Condition under which __std_tzbd_get_local_info issues its second
_Get_sys_time call: one of the two boundary windows applies to the first
candidate. -/
abbrev localConsultsBoundary (d : SysData) (L : Int) : Prop :=
  (d.begin ≠ U_DATE_MIN ∧ L - d.offset < d.begin + U_MILLIS_PER_DAY) ∨
  (d.end_ ≠ U_DATE_MAX ∧ L - d.offset > d.end_ - U_MILLIS_PER_DAY)

/-- Function __std_tzbd_get_local_info (tzdb.cpp lines 487-578) with its
error paths: result is (returned pointer carrying the error field and the
classification, the final error cell value).  The _Result field of the info
struct is zero-initialized, and local_info::unique is that zero, so error
releases carry unique. -/
def __std_tzbd_get_local_info_run (oc : LocalOracle) :
    Option (__std_tzdb_error × LKind) × __std_tzdb_error :=
  if ¬oc.infoAlloc then (none, __std_tzdb_error._Success)
  else
    let c := _Get_cal oc.cal __std_tzdb_error._Success
    if c.1 = false then
      if c.2 ≠ __std_tzdb_error._Success then (some (c.2, LKind.unique), c.2)
      else (none, c.2)
    else
      let g1 := _Get_sys_time_run oc.gst1 c.2
      if g1.1 = false then
        if g1.2.1 ≠ __std_tzdb_error._Success then (some (g1.2.1, LKind.unique), g1.2.1)
        else (none, g1.2.1)
      else
        let first := g1.2.2
        let currSys := oc.localInstant - first.offset
        if first.begin ≠ U_DATE_MIN ∧ currSys < first.begin + U_MILLIS_PER_DAY then
          let g2 := _Get_sys_time_run oc.gst2 g1.2.1
          if g2.1 = false then
            if g2.2.1 ≠ __std_tzdb_error._Success then
              (some (g2.2.1, LKind.unique), g2.2.1)
            else (none, g2.2.1)
          else
            let r := classifyBegin first g2.2.2 oc.localInstant currSys
            (some (g2.2.1, r.1), g2.2.1)
        else if first.end_ ≠ U_DATE_MAX ∧ currSys > first.end_ - U_MILLIS_PER_DAY then
          let g2 := _Get_sys_time_run oc.gst2 g1.2.1
          if g2.1 = false then
            if g2.2.1 ≠ __std_tzdb_error._Success then
              (some (g2.2.1, LKind.unique), g2.2.1)
            else (none, g2.2.1)
          else
            let r := classifyEnd first g2.2.2 oc.localInstant currSys
            (some (g2.2.1, r.1), g2.2.1)
        else (some (g1.2.1, LKind.unique), g1.2.1)

/-- Known-link correction table _Known_links (tzdb.cpp lines 179-185), as
(target, name) pairs in source order. -/
def _Known_links : List (String × String) :=
  [("Pacific/Auckland", "Antarctica/McMurdo"),
   ("Africa/Maputo", "Africa/Lusaka")]

/-- Link slot computed by the inner loop of __std_tzdb_get_time_zones
(tzdb.cpp lines 386-391): scan the whole correction table, a strcmp match
storing the target (a later match would overwrite an earlier one). -/
def linkFor (n : String) : Option String :=
  _Known_links.foldl (fun acc l => if n = l.2 then some l.1 else acc) none

/-- Outcome oracle for one iteration of the enumeration loop: uenum_unext
failed (or returned null), the wide-to-narrow conversion of the id failed,
the id string allocation failed, or the id s was produced. -/
inductive ElemO where
  | unextFail
  | convFail
  | allocFail
  | ok (s : String)
deriving DecidableEq, Repr

/-- Enumeration loop of __std_tzdb_get_time_zones (tzdb.cpp lines 373-392):
k iterations remain, i is the current index, acc the entries built so far in
reverse; each produced id is stored together with its link slot. -/
def tzLoop (elems : Nat → ElemO) :
    Nat → Nat → List (String × Option String) →
    Option (__std_tzdb_error × List (String × Option String)) × __std_tzdb_error
  | 0, _, acc => (some (__std_tzdb_error._Success, acc.reverse), __std_tzdb_error._Success)
  | k + 1, i, acc =>
    match elems i with
    | ElemO.unextFail =>
        (some (__std_tzdb_error._Icu_error, acc.reverse), __std_tzdb_error._Icu_error)
    | ElemO.convFail =>
        (some (__std_tzdb_error._Win_error, acc.reverse), __std_tzdb_error._Win_error)
    | ElemO.allocFail => (none, __std_tzdb_error._Success)
    | ElemO.ok s => tzLoop elems k (i + 1) ((s, linkFor s) :: acc)

/-- Oracle for one __std_tzdb_get_time_zones call. -/
structure TZOracle where
  infoAlloc : Bool
  acquireOk : Bool
  enumOk : Bool
  countOk : Bool
  count : Nat
  namesAlloc : Bool
  linksAlloc : Bool
  elems : Nat → ElemO

/-- Function __std_tzdb_get_time_zones (tzdb.cpp lines 324-395): result is
(returned pointer as Option of error field and entries, final error cell).
A failed acquire of the ICU binding is reported as _Win_error; enumeration
open and count failures as _Icu_error; the three array allocations return
null with the cell still _Success. -/
def __std_tzdb_get_time_zones (oc : TZOracle) :
    Option (__std_tzdb_error × List (String × Option String)) × __std_tzdb_error :=
  if ¬oc.infoAlloc then (none, __std_tzdb_error._Success)
  else if ¬oc.acquireOk then
    (some (__std_tzdb_error._Win_error, []), __std_tzdb_error._Win_error)
  else if ¬oc.enumOk then
    (some (__std_tzdb_error._Icu_error, []), __std_tzdb_error._Icu_error)
  else if ¬oc.countOk then
    (some (__std_tzdb_error._Icu_error, []), __std_tzdb_error._Icu_error)
  else if ¬oc.namesAlloc then (none, __std_tzdb_error._Success)
  else if ¬oc.linksAlloc then (none, __std_tzdb_error._Success)
  else tzLoop oc.elems oc.count 0 []

/-- Oracle for one __std_tzdb_get_current_zone call. -/
structure CZOracle where
  infoAlloc : Bool
  acquireOk : Bool
  defaultOk : Bool
  wn : WNOutcome
deriving DecidableEq, Repr

/-- Function __std_tzdb_get_current_zone (tzdb.cpp lines 417-447): a failed
acquire is _Win_error, a failed or empty ucal_getDefaultTimeZone is
_Icu_error, then the id is converted by _Allocate_wide_to_narrow with the
usual null-with-success-means-bad-alloc convention. -/
def __std_tzdb_get_current_zone (oc : CZOracle) :
    Option (__std_tzdb_error × Option String) × __std_tzdb_error :=
  if ¬oc.infoAlloc then (none, __std_tzdb_error._Success)
  else if ¬oc.acquireOk then
    (some (__std_tzdb_error._Win_error, none), __std_tzdb_error._Win_error)
  else if ¬oc.defaultOk then
    (some (__std_tzdb_error._Icu_error, none), __std_tzdb_error._Icu_error)
  else
    let w := _Allocate_wide_to_narrow oc.wn __std_tzdb_error._Success
    match w.1 with
    | none =>
        if w.2 ≠ __std_tzdb_error._Success then (some (w.2, none), w.2)
        else (none, w.2)
    | some s => (some (__std_tzdb_error._Success, some s), __std_tzdb_error._Success)

/-- Enumeration oracle producing three ids, one of each interesting kind. -/
def tzOracleW : TZOracle :=
  ⟨true, true, true, true, 3, true, true,
    fun i =>
      if i = 0 then ElemO.ok "Antarctica/McMurdo"
      else if i = 1 then ElemO.ok "UTC"
      else ElemO.ok "Africa/Lusaka"⟩

/-! Error-return convention of the four entry points. -/

/-- Some allocation oracle of a __std_tzbd_get_sys_info run failed. -/
def sysInfoAllocFailure (oc : SysInfoOracle) : Prop :=
  ¬oc.infoAlloc ∨ oc.cal = CalOutcome.nwAllocFail ∨
    ∃ d, oc.gst = GSTO.abbrevAllocFail d

/-- An ICU or encoding failure occurs during a __std_tzbd_get_sys_info run
(the info allocation succeeded so the run proceeds, and a consumed callee
oracle reports an ICU or conversion failure). -/
def sysInfoBackendFailure (oc : SysInfoOracle) : Prop :=
  oc.infoAlloc = true ∧
    (oc.cal = CalOutcome.nwConvFail ∨ oc.cal = CalOutcome.openFail ∨
      (oc.cal = CalOutcome.ok ∧
        (oc.gst = GSTO.icuFail ∨ ∃ d, oc.gst = GSTO.abbrevConvFail d)))

/-- Some allocation oracle of a __std_tzbd_get_local_info run failed. -/
def localAllocFailure (oc : LocalOracle) : Prop :=
  ¬oc.infoAlloc ∨ oc.cal = CalOutcome.nwAllocFail ∨
    (∃ d, oc.gst1 = GSTO.abbrevAllocFail d) ∨
    (∃ d, oc.gst2 = GSTO.abbrevAllocFail d)

/-- An ICU or encoding failure occurs during a __std_tzbd_get_local_info run
(the second _Get_sys_time oracle counts only when the boundary branch that
consumes it is reached). -/
def localBackendFailure (oc : LocalOracle) : Prop :=
  oc.infoAlloc = true ∧
    (oc.cal = CalOutcome.nwConvFail ∨ oc.cal = CalOutcome.openFail ∨
      (oc.cal = CalOutcome.ok ∧
        (oc.gst1 = GSTO.icuFail ∨ (∃ d, oc.gst1 = GSTO.abbrevConvFail d) ∨
          (∃ d, oc.gst1 = GSTO.ok d ∧ localConsultsBoundary d oc.localInstant ∧
            (oc.gst2 = GSTO.icuFail ∨ ∃ d2, oc.gst2 = GSTO.abbrevConvFail d2)))))

/-- Some allocation oracle consumed by the enumeration loop failed. -/
def tzLoopAllocFailure (elems : Nat → ElemO) : Nat → Nat → Prop
  | 0, _ => False
  | k + 1, i =>
    match elems i with
    | ElemO.allocFail => True
    | ElemO.ok _ => tzLoopAllocFailure elems k (i + 1)
    | _ => False

/-- A backend or encoding failure occurs in the enumeration loop. -/
def tzLoopBackendFailure (elems : Nat → ElemO) : Nat → Nat → Prop
  | 0, _ => False
  | k + 1, i =>
    match elems i with
    | ElemO.unextFail => True
    | ElemO.convFail => True
    | ElemO.ok _ => tzLoopBackendFailure elems k (i + 1)
    | _ => False

/-- Some allocation oracle of a __std_tzdb_get_time_zones run failed. -/
def tzAllocFailure (oc : TZOracle) : Prop :=
  ¬oc.infoAlloc ∨
    (oc.acquireOk ∧ oc.enumOk ∧ oc.countOk ∧
      (¬oc.namesAlloc ∨ ¬oc.linksAlloc ∨
        (oc.namesAlloc ∧ oc.linksAlloc ∧ tzLoopAllocFailure oc.elems oc.count 0)))

/-- An ICU, Windows or encoding failure occurs during a
__std_tzdb_get_time_zones run (a failed acquire of the binding is reported
as a Windows error). -/
def tzBackendFailure (oc : TZOracle) : Prop :=
  oc.infoAlloc = true ∧
    (¬oc.acquireOk ∨ ¬oc.enumOk ∨ ¬oc.countOk ∨
      (oc.acquireOk ∧ oc.enumOk ∧ oc.countOk ∧ oc.namesAlloc ∧ oc.linksAlloc ∧
        tzLoopBackendFailure oc.elems oc.count 0))

/-- Some allocation oracle of a __std_tzdb_get_current_zone run failed. -/
def czAllocFailure (oc : CZOracle) : Prop :=
  ¬oc.infoAlloc ∨ oc.wn = WNOutcome.allocFail

/-- An ICU, Windows or encoding failure occurs during a
__std_tzdb_get_current_zone run. -/
def czBackendFailure (oc : CZOracle) : Prop :=
  oc.infoAlloc = true ∧
    (¬oc.acquireOk ∨ ¬oc.defaultOk ∨
      (oc.acquireOk ∧ oc.defaultOk ∧ oc.wn = WNOutcome.convFail))

/-! Theorems. -/

/-- C1: near-begin disambiguation.  When the raw query for the local instant
yields a first candidate with begin distinct from U_DATE_MIN and
curr_sys = local - first.offset within one day past begin, the function
fetches prev at begin - 1 and classifies by the positions of curr_sys and
prev_sys = local - prev.offset relative to T = begin: at-or-after and before
gives ambiguous with output (prev, first); both at-or-after gives unique on
first; before and at-or-after gives nonexistent with output (prev, first);
both before gives unique on prev. -/
theorem local_info_near_begin_classification (B : IcuBackend) (L : Int)
    (first prev : SysData) (currSys T prevSys : Int)
    (hf : first = _Get_sys_time B L)
    (hp : prev = _Get_sys_time B (first.begin - 1))
    (hc : currSys = L - first.offset)
    (hT : T = first.begin)
    (hps : prevSys = L - prev.offset)
    (hmin : first.begin ≠ U_DATE_MIN)
    (hday : currSys < first.begin + U_MILLIS_PER_DAY) :
    (currSys ≥ T ∧ prevSys < T →
      (__std_tzbd_get_local_info B L).result = LKind.ambiguous ∧
      (__std_tzbd_get_local_info B L).first = prev ∧
      (__std_tzbd_get_local_info B L).second = first) ∧
    (currSys ≥ T ∧ prevSys ≥ T →
      (__std_tzbd_get_local_info B L).result = LKind.unique ∧
      (__std_tzbd_get_local_info B L).first = first) ∧
    (currSys < T ∧ prevSys ≥ T →
      (__std_tzbd_get_local_info B L).result = LKind.nonexistent ∧
      (__std_tzbd_get_local_info B L).first = prev ∧
      (__std_tzbd_get_local_info B L).second = first) ∧
    (currSys < T ∧ prevSys < T →
      (__std_tzbd_get_local_info B L).result = LKind.unique ∧
      (__std_tzbd_get_local_info B L).first = prev) := by
  subst hf hc hT
  subst hp hps
  simp only [__std_tzbd_get_local_info, classifyBegin]
  rw [if_pos ⟨hmin, hday⟩]
  refine ⟨fun h => ?_, fun h => ?_, fun h => ?_, fun h => ?_⟩
  · rw [if_pos h.1, if_pos h.2]
    exact ⟨rfl, rfl, rfl⟩
  · rw [if_pos h.1, if_neg (by omega)]
    exact ⟨rfl, rfl⟩
  · rw [if_neg (by omega), if_pos h.2]
    exact ⟨rfl, rfl, rfl⟩
  · rw [if_neg (by omega), if_neg (by omega)]
    exact ⟨rfl, rfl⟩

/-- Witness for the near-begin classification: backendB1 at local instant
1000 satisfies every hypothesis and falls in the ambiguous case. -/
theorem local_info_near_begin_classification_witness :
    (_Get_sys_time backendB1 1000).begin ≠ U_DATE_MIN ∧
    (__std_tzbd_get_local_info backendB1 1000).result = LKind.ambiguous := by
  refine ⟨by decide, ?_⟩
  have h := local_info_near_begin_classification backendB1 1000
    (_Get_sys_time backendB1 1000)
    (_Get_sys_time backendB1 ((_Get_sys_time backendB1 1000).begin - 1))
    (1000 - (_Get_sys_time backendB1 1000).offset)
    ((_Get_sys_time backendB1 1000).begin)
    (1000 - (_Get_sys_time backendB1 ((_Get_sys_time backendB1 1000).begin - 1)).offset)
    rfl rfl rfl rfl rfl (by decide) (by decide)
  exact (h.1 (by decide)).1

/-- C2: near-end disambiguation.  When the near-begin branch does not apply
and the first candidate has end distinct from U_DATE_MAX with curr_sys within
one day before end, the function fetches next at end + 1 and classifies by
the positions of curr_sys and next_sys relative to T = end: before and
at-or-after gives ambiguous with output (first, next); both before gives
unique on first; at-or-after and before gives nonexistent with output
(first, next); both at-or-after gives unique on next. -/
theorem local_info_near_end_classification (B : IcuBackend) (L : Int)
    (first next : SysData) (currSys T nextSys : Int)
    (hf : first = _Get_sys_time B L)
    (hn : next = _Get_sys_time B (first.end_ + 1))
    (hc : currSys = L - first.offset)
    (hT : T = first.end_)
    (hns : nextSys = L - next.offset)
    (hnb : ¬(first.begin ≠ U_DATE_MIN ∧ currSys < first.begin + U_MILLIS_PER_DAY))
    (hmax : first.end_ ≠ U_DATE_MAX)
    (hday : currSys > first.end_ - U_MILLIS_PER_DAY) :
    (currSys < T ∧ nextSys ≥ T →
      (__std_tzbd_get_local_info B L).result = LKind.ambiguous ∧
      (__std_tzbd_get_local_info B L).first = first ∧
      (__std_tzbd_get_local_info B L).second = next) ∧
    (currSys < T ∧ nextSys < T →
      (__std_tzbd_get_local_info B L).result = LKind.unique ∧
      (__std_tzbd_get_local_info B L).first = first) ∧
    (currSys ≥ T ∧ nextSys < T →
      (__std_tzbd_get_local_info B L).result = LKind.nonexistent ∧
      (__std_tzbd_get_local_info B L).first = first ∧
      (__std_tzbd_get_local_info B L).second = next) ∧
    (currSys ≥ T ∧ nextSys ≥ T →
      (__std_tzbd_get_local_info B L).result = LKind.unique ∧
      (__std_tzbd_get_local_info B L).first = next) := by
  subst hf hc hT
  subst hn hns
  simp only [__std_tzbd_get_local_info, classifyEnd]
  rw [if_neg hnb, if_pos ⟨hmax, hday⟩]
  refine ⟨fun h => ?_, fun h => ?_, fun h => ?_, fun h => ?_⟩
  · rw [if_pos h.1, if_pos h.2]
    exact ⟨rfl, rfl, rfl⟩
  · rw [if_pos h.1, if_neg (by omega)]
    exact ⟨rfl, rfl⟩
  · rw [if_neg (by omega), if_pos h.2]
    exact ⟨rfl, rfl, rfl⟩
  · rw [if_neg (by omega), if_neg (by omega)]
    exact ⟨rfl, rfl⟩

/-- Witness for the near-end classification: backendB2 at local instant -100
satisfies every hypothesis and falls in the ambiguous case. -/
theorem local_info_near_end_classification_witness :
    (_Get_sys_time backendB2 (-100)).end_ ≠ U_DATE_MAX ∧
    (__std_tzbd_get_local_info backendB2 (-100)).result = LKind.ambiguous := by
  refine ⟨by decide, ?_⟩
  have h := local_info_near_end_classification backendB2 (-100)
    (_Get_sys_time backendB2 (-100))
    (_Get_sys_time backendB2 ((_Get_sys_time backendB2 (-100)).end_ + 1))
    (-100 - (_Get_sys_time backendB2 (-100)).offset)
    ((_Get_sys_time backendB2 (-100)).end_)
    (-100 - (_Get_sys_time backendB2 ((_Get_sys_time backendB2 (-100)).end_ + 1)).offset)
    rfl rfl rfl rfl rfl (by decide) (by decide) (by decide)
  exact (h.1 (by decide)).1

/-- C3 evaluation at the failing input: when the backend reports that
daylight time is NOT in effect but its daylight-offset component is 3600000,
_Get_sys_time returns save = 3600000 rather than the save = 0 required by
the specification, because tzdb.cpp lines 282-284 unconditionally re-read
UCAL_DST_OFFSET into save after the branch at lines 269-280 already stored
save = 0; the offset is still the zone offset alone, and the abbreviation is
consequently taken from the daylight variant. -/
theorem get_sys_time_standard_save_overwritten :
    (backendB3.query 0).inDaylight = false ∧
    (_Get_sys_time backendB3 0).save = 3600000 ∧
    (_Get_sys_time backendB3 0).save ≠ 0 ∧
    (_Get_sys_time backendB3 0).offset = -28800000 ∧
    (_Get_sys_time backendB3 0).abbrev_ = some "PDT" := by
  decide

/-- C4: when the first candidate satisfies neither boundary condition (begin
is the U_DATE_MIN sentinel or curr_sys is at least one day past begin, and
end is the U_DATE_MAX sentinel or curr_sys is at least one day before end),
__std_tzbd_get_local_info returns unique with the first candidate and
performs no extra _Get_sys_time query; and in every case it performs at most
one extra query. -/
theorem local_info_interior_unique_no_extra_query (B : IcuBackend) (L : Int)
    (h1 : (_Get_sys_time B L).begin = U_DATE_MIN ∨
      L - (_Get_sys_time B L).offset ≥ (_Get_sys_time B L).begin + U_MILLIS_PER_DAY)
    (h2 : (_Get_sys_time B L).end_ = U_DATE_MAX ∨
      L - (_Get_sys_time B L).offset ≤ (_Get_sys_time B L).end_ - U_MILLIS_PER_DAY) :
    ((__std_tzbd_get_local_info B L).result = LKind.unique ∧
     (__std_tzbd_get_local_info B L).first = _Get_sys_time B L ∧
     (__std_tzbd_get_local_info B L).extraQueries = 0) ∧
    ∀ (C : IcuBackend) (M : Int), (__std_tzbd_get_local_info C M).extraQueries ≤ 1 := by
  have h1n : ¬((_Get_sys_time B L).begin ≠ U_DATE_MIN ∧
      L - (_Get_sys_time B L).offset < (_Get_sys_time B L).begin + U_MILLIS_PER_DAY) := by
    rcases h1 with h | h
    · exact fun hc => hc.1 h
    · exact fun hc => absurd hc.2 (by omega)
  have h2n : ¬((_Get_sys_time B L).end_ ≠ U_DATE_MAX ∧
      L - (_Get_sys_time B L).offset > (_Get_sys_time B L).end_ - U_MILLIS_PER_DAY) := by
    rcases h2 with h | h
    · exact fun hc => hc.1 h
    · exact fun hc => absurd hc.2 (by omega)
  constructor
  · simp only [__std_tzbd_get_local_info]
    rw [if_neg h1n, if_neg h2n]
    exact ⟨rfl, rfl, rfl⟩
  · intro C M
    simp only [__std_tzbd_get_local_info]
    split
    · exact le_refl 1
    split
    · exact le_refl 1
    · exact Nat.zero_le 1

/-- Witness for the interior-unique theorem: backendB4 (a zone with a single
rule for all time) at local instant 5 satisfies both far-from-boundary
hypotheses and yields unique with zero extra queries. -/
theorem local_info_interior_unique_no_extra_query_witness :
    ((_Get_sys_time backendB4 5).begin = U_DATE_MIN ∨
      5 - (_Get_sys_time backendB4 5).offset ≥
        (_Get_sys_time backendB4 5).begin + U_MILLIS_PER_DAY) ∧
    (__std_tzbd_get_local_info backendB4 5).result = LKind.unique ∧
    (__std_tzbd_get_local_info backendB4 5).extraQueries = 0 := by
  refine ⟨by decide, ?_, ?_⟩
  · exact ((local_info_interior_unique_no_extra_query backendB4 5
      (by decide) (by decide)).1).1
  · exact ((local_info_interior_unique_no_extra_query backendB4 5
      (by decide) (by decide)).1).2.2

/-- C5 counterexample: at backendB5 and local instant 1000 the near-begin
branch is taken (curr_sys and prev_sys both at or after the transition), the
result kind is unique, and yet the second slot is populated with the fetched
previous rule (its abbreviation pointer is non-null), refuting the claimed
invariant that the second sys-info is present iff the kind is not unique. -/
theorem local_info_unique_with_populated_second :
    (__std_tzbd_get_local_info backendB5 1000).result = LKind.unique ∧
    (__std_tzbd_get_local_info backendB5 1000).second.abbrev_ = some "P" ∧
    (__std_tzbd_get_local_info backendB5 1000).second.abbrev_ ≠ none := by
  decide

/-- C5 amended: the second slot is populated whenever the kind is not unique
(the converse fails: a unique result reached through a boundary consultation
also leaves the consulted data in the second slot); when ambiguous the two
slots are ordered earlier-candidate first by their implied system instants;
when nonexistent the implied instants straddle the gap in reverse order and
the pair is exactly (rule in force just before the consulted transition,
rule beginning at-or-after it) in output order (first, second) = (before,
after) with respect to the raw queries the function made. -/
theorem local_info_second_slot_amended (B : IcuBackend) (L : Int) :
    ((__std_tzbd_get_local_info B L).result ≠ LKind.unique →
      (__std_tzbd_get_local_info B L).second.abbrev_ ≠ none) ∧
    ((__std_tzbd_get_local_info B L).result = LKind.ambiguous →
      L - (__std_tzbd_get_local_info B L).first.offset <
      L - (__std_tzbd_get_local_info B L).second.offset) ∧
    ((__std_tzbd_get_local_info B L).result = LKind.nonexistent →
      L - (__std_tzbd_get_local_info B L).second.offset <
      L - (__std_tzbd_get_local_info B L).first.offset) ∧
    ((__std_tzbd_get_local_info B L).result ≠ LKind.unique →
      ((__std_tzbd_get_local_info B L).second = _Get_sys_time B L ∧
        (__std_tzbd_get_local_info B L).first =
          _Get_sys_time B ((__std_tzbd_get_local_info B L).second.begin - 1)) ∨
      ((__std_tzbd_get_local_info B L).first = _Get_sys_time B L ∧
        (__std_tzbd_get_local_info B L).second =
          _Get_sys_time B ((__std_tzbd_get_local_info B L).first.end_ + 1))) := by
  by_cases hb : (_Get_sys_time B L).begin ≠ U_DATE_MIN ∧
      L - (_Get_sys_time B L).offset < (_Get_sys_time B L).begin + U_MILLIS_PER_DAY
  · simp only [__std_tzbd_get_local_info, classifyBegin]
    rw [if_pos hb]
    by_cases h1 : L - (_Get_sys_time B L).offset ≥ (_Get_sys_time B L).begin
    · by_cases h2 : L - (_Get_sys_time B ((_Get_sys_time B L).begin - 1)).offset <
          (_Get_sys_time B L).begin
      · rw [if_pos h1, if_pos h2]
        refine ⟨fun _ => ?_, fun _ => by simp only [LocalData.first, LocalData.second]; omega, fun h => by simp at h, fun _ => ?_⟩
        · simp [_Get_sys_time]
        · exact Or.inl ⟨rfl, rfl⟩
      · rw [if_pos h1, if_neg h2]
        exact ⟨fun h => absurd rfl h, fun h => by simp at h, fun h => by simp at h, fun h => absurd rfl h⟩
    · by_cases h2 : L - (_Get_sys_time B ((_Get_sys_time B L).begin - 1)).offset ≥
          (_Get_sys_time B L).begin
      · rw [if_neg h1, if_pos h2]
        refine ⟨fun _ => ?_, fun h => by simp at h, fun _ => by simp only [LocalData.first, LocalData.second]; omega, fun _ => ?_⟩
        · simp [_Get_sys_time]
        · exact Or.inl ⟨rfl, rfl⟩
      · rw [if_neg h1, if_neg h2]
        exact ⟨fun h => absurd rfl h, fun h => by simp at h, fun h => by simp at h, fun h => absurd rfl h⟩
  · by_cases he : (_Get_sys_time B L).end_ ≠ U_DATE_MAX ∧
        L - (_Get_sys_time B L).offset > (_Get_sys_time B L).end_ - U_MILLIS_PER_DAY
    · simp only [__std_tzbd_get_local_info, classifyEnd]
      rw [if_neg hb, if_pos he]
      by_cases h1 : L - (_Get_sys_time B L).offset < (_Get_sys_time B L).end_
      · by_cases h2 : L - (_Get_sys_time B ((_Get_sys_time B L).end_ + 1)).offset ≥
            (_Get_sys_time B L).end_
        · rw [if_pos h1, if_pos h2]
          refine ⟨fun _ => ?_, fun _ => by simp only [LocalData.first, LocalData.second]; omega, fun h => by simp at h, fun _ => ?_⟩
          · simp [_Get_sys_time]
          · exact Or.inr ⟨rfl, rfl⟩
        · rw [if_pos h1, if_neg h2]
          exact ⟨fun h => absurd rfl h, fun h => by simp at h, fun h => by simp at h, fun h => absurd rfl h⟩
      · by_cases h2 : L - (_Get_sys_time B ((_Get_sys_time B L).end_ + 1)).offset <
            (_Get_sys_time B L).end_
        · rw [if_neg h1, if_pos h2]
          refine ⟨fun _ => ?_, fun h => by simp at h, fun _ => by simp only [LocalData.first, LocalData.second]; omega, fun _ => ?_⟩
          · simp [_Get_sys_time]
          · exact Or.inr ⟨rfl, rfl⟩
        · rw [if_neg h1, if_neg h2]
          exact ⟨fun h => absurd rfl h, fun h => by simp at h, fun h => by simp at h, fun h => absurd rfl h⟩
    · simp only [__std_tzbd_get_local_info]
      rw [if_neg hb, if_neg he]
      exact ⟨fun h => absurd rfl h, fun h => by simp at h, fun h => by simp at h, fun h => absurd rfl h⟩

/-- Witness for the amended second-slot theorem at a populated instance:
backendB1 at local instant 1000 yields ambiguous with the implied system
instants strictly ordered. -/
theorem local_info_second_slot_amended_witness :
    (__std_tzbd_get_local_info backendB1 1000).result = LKind.ambiguous ∧
    1000 - (__std_tzbd_get_local_info backendB1 1000).first.offset <
      1000 - (__std_tzbd_get_local_info backendB1 1000).second.offset := by
  exact ⟨by decide, (local_info_second_slot_amended backendB1 1000).2.1 (by decide)⟩

/-- C7: terminal states are cached.  Once the published level is
__has_failed or __has_icu_addresses, every later _Acquire_icu_functions call
returns that level without attempting the library load, leaves the cell
unchanged, and any sequence of further calls (whatever their load-outcome
oracles would have been) leaves the cell at the same level. -/
theorem acquire_terminal_state_cached (s : _Icu_api_level)
    (h : s = _Icu_api_level.__has_failed ∨ s = _Icu_api_level.__has_icu_addresses) :
    (∀ outcome : Bool, _Acquire_icu_functions s outcome = ⟨s, s, false⟩) ∧
    (∀ outs : List Bool, outs.foldl acquireState s = s) := by
  have hgt : ¬levelNat s ≤ levelNat _Icu_api_level.__detecting := by
    rcases h with h | h <;> subst h <;> decide
  constructor
  · intro outcome
    simp only [_Acquire_icu_functions]
    rw [if_neg hgt]
  · intro outs
    induction outs with
    | nil => rfl
    | cons o rest ih =>
        have hstep : acquireState s o = s := by
          simp only [acquireState, _Acquire_icu_functions]
          rw [if_neg hgt]
        simpa [List.foldl, hstep] using ih

/-- Witness for the terminal-state caching theorem at __has_failed with a
would-succeed load oracle: the failure stays cached. -/
theorem acquire_terminal_state_cached_witness :
    _Acquire_icu_functions _Icu_api_level.__has_failed true =
      ⟨_Icu_api_level.__has_failed, _Icu_api_level.__has_failed, false⟩ ∧
    [true, false, true].foldl acquireState _Icu_api_level.__has_failed =
      _Icu_api_level.__has_failed := by
  have h := acquire_terminal_state_cached _Icu_api_level.__has_failed (Or.inl rfl)
  exact ⟨h.1 true, h.2 [true, false, true]⟩

/-- C9 evaluation at the failing schedule: both threads enter the init loop,
thread 1 wins the compare-and-swap from __not_set; thread 2's failed CAS
updates its expected value to __detecting, and its retry CAS then succeeds
by exchanging __detecting for __detecting, so thread 2 exits the loop and
performs the library-load pass as well: the load runs twice and the losing
thread never spin-waits for a terminal state, contrary to the claimed
exactly-once initialization (and to the comment at tzdb.cpp lines 56-57). -/
theorem init_load_runs_twice_under_race :
    (runSched icuInit [true, false, true, false, false, true, false]).loadCount = 2 ∧
    (runSched icuInit [true, false, true, false, false]).t2.ph = TPh.load ∧
    (runSched icuInit [true, false, true, false, false]).shared =
      _Icu_api_level.__detecting := by
  decide

/-- C8 counterexample: when the key opens, the sizing query reports 12 bytes
(one entry, more than the zero already known) and the allocation fails, the
function returns current size 1 with a null array, which satisfies none of
the three result states of the claim. -/
theorem reg_leap_seconds_alloc_failure_outside_three_states :
    ¬(regNoNewData (__std_tzdb_get_reg_leap_seconds
        ⟨true, LStatus.success, 12, false, true⟩ 0) 0 ∨
      regNewDataRead (__std_tzdb_get_reg_leap_seconds
        ⟨true, LStatus.success, 12, false, true⟩ 0) 0 ∨
      regReadFailed (__std_tzdb_get_reg_leap_seconds
        ⟨true, LStatus.success, 12, false, true⟩ 0)) := by
  decide

/-- C8 amended: every return falls into exactly one of FOUR result states:
the three of the claim plus the allocation-failure state (count above known,
null array) that the source documents at tzdb.cpp line 595; and a failed
data read is reported as the distinct zero-count-with-array state, never as
no-new-data and never as a successful read of zero leap seconds. -/
theorem reg_leap_seconds_four_state_partition (env : RegEnv) (prev : Nat) :
    ((regNoNewData (__std_tzdb_get_reg_leap_seconds env prev) prev ∨
      regNewDataRead (__std_tzdb_get_reg_leap_seconds env prev) prev ∨
      regReadFailed (__std_tzdb_get_reg_leap_seconds env prev) ∨
      regAllocFailed (__std_tzdb_get_reg_leap_seconds env prev) prev) ∧
     ¬(regNoNewData (__std_tzdb_get_reg_leap_seconds env prev) prev ∧
       regNewDataRead (__std_tzdb_get_reg_leap_seconds env prev) prev) ∧
     ¬(regNoNewData (__std_tzdb_get_reg_leap_seconds env prev) prev ∧
       regReadFailed (__std_tzdb_get_reg_leap_seconds env prev)) ∧
     ¬(regNoNewData (__std_tzdb_get_reg_leap_seconds env prev) prev ∧
       regAllocFailed (__std_tzdb_get_reg_leap_seconds env prev) prev) ∧
     ¬(regNewDataRead (__std_tzdb_get_reg_leap_seconds env prev) prev ∧
       regReadFailed (__std_tzdb_get_reg_leap_seconds env prev)) ∧
     ¬(regNewDataRead (__std_tzdb_get_reg_leap_seconds env prev) prev ∧
       regAllocFailed (__std_tzdb_get_reg_leap_seconds env prev) prev) ∧
     ¬(regReadFailed (__std_tzdb_get_reg_leap_seconds env prev) ∧
       regAllocFailed (__std_tzdb_get_reg_leap_seconds env prev) prev)) ∧
    (env.openOk → env.sizeStatus ≠ LStatus.failed → env.byteSize / 12 > prev →
      env.allocOk → ¬env.readOk →
      __std_tzdb_get_reg_leap_seconds env prev = ⟨0, some (env.byteSize / 12)⟩ ∧
      regReadFailed (__std_tzdb_get_reg_leap_seconds env prev) ∧
      ¬regNoNewData (__std_tzdb_get_reg_leap_seconds env prev) prev ∧
      ¬regNewDataRead (__std_tzdb_get_reg_leap_seconds env prev) prev) := by
  rcases env with ⟨o, s, b, a, r⟩
  by_cases hgt : b / 12 > prev <;>
    cases o <;> cases s <;> cases a <;> cases r <;>
      simp_all [__std_tzdb_get_reg_leap_seconds, regNoNewData, regNewDataRead,
        regReadFailed, regAllocFailed] <;>
      (try split_ifs) <;> (try simp_all) <;> (try omega)

/-- Witness for the amended four-state partition: at an allocation-failure
environment the return is in the fourth state, and at a read-failure
environment (every hypothesis of the second part discharged concretely) the
return is the distinct zero-count-with-array state. -/
theorem reg_leap_seconds_four_state_partition_witness :
    regAllocFailed (__std_tzdb_get_reg_leap_seconds
      ⟨true, LStatus.success, 12, false, true⟩ 0) 0 ∧
    regReadFailed (__std_tzdb_get_reg_leap_seconds
      ⟨true, LStatus.success, 12, true, false⟩ 0) := by
  constructor
  · have h := reg_leap_seconds_four_state_partition
      ⟨true, LStatus.success, 12, false, true⟩ 0
    rcases h.1.1 with h1 | h1 | h1 | h1
    · exact absurd h1 (by decide)
    · exact absurd h1 (by decide)
    · exact absurd h1 (by decide)
    · exact h1
  · exact ((reg_leap_seconds_four_state_partition
      ⟨true, LStatus.success, 12, true, false⟩ 0).2 (by decide) (by decide)
      (by decide) (by decide) (by decide)).2.1

/-- Closed form of the link slot: exactly the two correction-table names
receive a target, every other id gets none. -/
theorem linkFor_eq (n : String) :
    linkFor n = (if n = "Antarctica/McMurdo" then some "Pacific/Auckland"
      else if n = "Africa/Lusaka" then some "Africa/Maputo" else none) := by
  by_cases h1 : n = "Antarctica/McMurdo"
  · subst h1
    decide
  · by_cases h2 : n = "Africa/Lusaka"
    · subst h2
      decide
    · simp [linkFor, _Known_links, h1, h2]

/-- Loop invariant: every entry a successful enumeration loop returns
carries the link slot computed by the correction-table scan. -/
theorem tzLoop_success_links (elems : Nat → ElemO) (k : Nat) :
    ∀ (i : Nat) (acc zs : List (String × Option String)) (e : __std_tzdb_error),
      (∀ p ∈ acc, p.2 = linkFor p.1) →
      tzLoop elems k i acc = (some (__std_tzdb_error._Success, zs), e) →
      ∀ p ∈ zs, p.2 = linkFor p.1 := by
  induction k with
  | zero =>
      intro i acc zs e hacc heq p hp
      simp only [tzLoop, Prod.mk.injEq, Option.some.injEq] at heq
      obtain ⟨⟨_, hzs⟩, _⟩ := heq
      subst hzs
      exact hacc p (List.mem_reverse.mp hp)
  | succ k ih =>
      intro i acc zs e hacc heq p hp
      cases helems : elems i with
      | unextFail =>
          simp only [tzLoop, helems, Prod.mk.injEq, Option.some.injEq] at heq
          exact absurd heq.1.1 (by decide)
      | convFail =>
          simp only [tzLoop, helems, Prod.mk.injEq, Option.some.injEq] at heq
          exact absurd heq.1.1 (by decide)
      | allocFail =>
          simp only [tzLoop, helems, Prod.mk.injEq] at heq
          exact absurd heq.1 (by simp)
      | ok s =>
          simp only [tzLoop, helems] at heq
          refine ih (i + 1) ((s, linkFor s) :: acc) zs e ?_ heq p hp
          intro q hq
          rcases List.mem_cons.mp hq with hq | hq
          · subst hq
            rfl
          · exact hacc q hq

/-- C6: in every successful __std_tzdb_get_time_zones result, an enumerated
id is emitted with a link slot iff it equals a correction-table entry,
namely Antarctica/McMurdo targeting Pacific/Auckland or Africa/Lusaka
targeting Africa/Maputo; every other id keeps a null link slot. -/
theorem time_zones_link_slot_exactly_known_links (oc : TZOracle)
    (zs : List (String × Option String)) (e : __std_tzdb_error)
    (h : __std_tzdb_get_time_zones oc = (some (__std_tzdb_error._Success, zs), e)) :
    ∀ p ∈ zs,
      p.2 = (if p.1 = "Antarctica/McMurdo" then some "Pacific/Auckland"
        else if p.1 = "Africa/Lusaka" then some "Africa/Maputo" else none) := by
  intro p hp
  rw [← linkFor_eq]
  unfold __std_tzdb_get_time_zones at h
  split_ifs at h
  · exact tzLoop_success_links oc.elems oc.count 0 [] zs e (by simp) h p hp
  all_goals simp at h

/-- Witness for the link-slot theorem: a concrete successful enumeration of
McMurdo, UTC and Lusaka, with the hypothesis discharged by evaluation; the
two correction-table ids get their targets, UTC gets none. -/
theorem time_zones_link_slot_exactly_known_links_witness :
    __std_tzdb_get_time_zones tzOracleW =
      (some (__std_tzdb_error._Success,
        [("Antarctica/McMurdo", some "Pacific/Auckland"),
         ("UTC", none),
         ("Africa/Lusaka", some "Africa/Maputo")]), __std_tzdb_error._Success) ∧
    ∀ p ∈ [("Antarctica/McMurdo", some "Pacific/Auckland"),
           ("UTC", (none : Option String)),
           ("Africa/Lusaka", some "Africa/Maputo")],
      p.2 = (if p.1 = "Antarctica/McMurdo" then some "Pacific/Auckland"
        else if p.1 = "Africa/Lusaka" then some "Africa/Maputo" else none) := by
  constructor
  · decide
  · exact time_zones_link_slot_exactly_known_links tzOracleW
      [("Antarctica/McMurdo", some "Pacific/Auckland"),
       ("UTC", none),
       ("Africa/Lusaka", some "Africa/Maputo")] __std_tzdb_error._Success (by decide)

/-- Error contract of __std_tzbd_get_sys_info: null is returned only when an
allocation oracle failed and then the error cell still holds _Success; any
backend failure yields a released (non-null) result whose error field is
_Icu_error or _Win_error. -/
theorem sys_info_err_contract (oc : SysInfoOracle) :
    ((__std_tzbd_get_sys_info oc).1 = none →
      sysInfoAllocFailure oc ∧
      (__std_tzbd_get_sys_info oc).2 = __std_tzdb_error._Success) ∧
    (sysInfoBackendFailure oc →
      ∃ p, (__std_tzbd_get_sys_info oc).1 = some p ∧
        (p.1 = __std_tzdb_error._Icu_error ∨ p.1 = __std_tzdb_error._Win_error)) := by
  obtain ⟨ia, cal, gst⟩ := oc
  cases ia <;> cases cal <;> cases gst <;>
    simp [__std_tzbd_get_sys_info, _Get_cal, _Get_sys_time_run,
      sysInfoAllocFailure, sysInfoBackendFailure]

/-- Error contract of __std_tzbd_get_local_info: null is returned only when
an allocation oracle failed and then the error cell still holds _Success;
any backend failure yields a non-null result with _Icu_error or _Win_error. -/
theorem local_info_err_contract (oc : LocalOracle) :
    ((__std_tzbd_get_local_info_run oc).1 = none →
      localAllocFailure oc ∧
      (__std_tzbd_get_local_info_run oc).2 = __std_tzdb_error._Success) ∧
    (localBackendFailure oc →
      ∃ p, (__std_tzbd_get_local_info_run oc).1 = some p ∧
        (p.1 = __std_tzdb_error._Icu_error ∨ p.1 = __std_tzdb_error._Win_error)) := by
  obtain ⟨ia, cal, g1, g2, L⟩ := oc
  cases ia <;> cases cal <;> cases g1 <;> cases g2 <;>
    simp [__std_tzbd_get_local_info_run, _Get_cal, _Get_sys_time_run,
      localAllocFailure, localBackendFailure, localConsultsBoundary] <;>
    (try split_ifs) <;> simp_all

/-- Error contract of the enumeration loop. -/
theorem tzLoop_err_contract (elems : Nat → ElemO) (k : Nat) :
    ∀ (i : Nat) (acc : List (String × Option String)),
      ((tzLoop elems k i acc).1 = none →
        tzLoopAllocFailure elems k i ∧
        (tzLoop elems k i acc).2 = __std_tzdb_error._Success) ∧
      (tzLoopBackendFailure elems k i →
        ∃ p, (tzLoop elems k i acc).1 = some p ∧
          (p.1 = __std_tzdb_error._Icu_error ∨ p.1 = __std_tzdb_error._Win_error)) := by
  induction k with
  | zero =>
      intro i acc
      simp [tzLoop, tzLoopAllocFailure, tzLoopBackendFailure]
  | succ k ih =>
      intro i acc
      cases helems : elems i with
      | unextFail => simp [tzLoop, tzLoopAllocFailure, tzLoopBackendFailure, helems]
      | convFail => simp [tzLoop, tzLoopAllocFailure, tzLoopBackendFailure, helems]
      | allocFail => simp [tzLoop, tzLoopAllocFailure, tzLoopBackendFailure, helems]
      | ok s =>
          simpa [tzLoop, tzLoopAllocFailure, tzLoopBackendFailure, helems]
            using ih (i + 1) ((s, linkFor s) :: acc)

/-- Error contract of __std_tzdb_get_time_zones. -/
theorem time_zones_err_contract (oc : TZOracle) :
    ((__std_tzdb_get_time_zones oc).1 = none →
      tzAllocFailure oc ∧
      (__std_tzdb_get_time_zones oc).2 = __std_tzdb_error._Success) ∧
    (tzBackendFailure oc →
      ∃ p, (__std_tzdb_get_time_zones oc).1 = some p ∧
        (p.1 = __std_tzdb_error._Icu_error ∨ p.1 = __std_tzdb_error._Win_error)) := by
  obtain ⟨ia, aq, en, co, n, na, la, elems⟩ := oc
  cases ia <;> cases aq <;> cases en <;> cases co <;> cases na <;> cases la <;>
    simpa [__std_tzdb_get_time_zones, tzAllocFailure, tzBackendFailure]
      using tzLoop_err_contract elems n 0 []

/-- Error contract of __std_tzdb_get_current_zone. -/
theorem current_zone_err_contract (oc : CZOracle) :
    ((__std_tzdb_get_current_zone oc).1 = none →
      czAllocFailure oc ∧
      (__std_tzdb_get_current_zone oc).2 = __std_tzdb_error._Success) ∧
    (czBackendFailure oc →
      ∃ p, (__std_tzdb_get_current_zone oc).1 = some p ∧
        (p.1 = __std_tzdb_error._Icu_error ∨ p.1 = __std_tzdb_error._Win_error)) := by
  obtain ⟨ia, aq, df, wn⟩ := oc
  cases ia <;> cases aq <;> cases df <;> cases wn <;>
    simp [__std_tzdb_get_current_zone, _Allocate_wide_to_narrow,
      czAllocFailure, czBackendFailure]

/-- C10: across the four query entry points, a null return happens only when
a memory allocation failed, and in that case the error field of the
discarded result was still _Success; every ICU or Windows/encoding failure
instead yields a non-null result whose error field is _Icu_error or
_Win_error, so allocation exhaustion and backend failure are never
conflated. -/
theorem entry_points_null_only_on_alloc_failure :
    (∀ oc : TZOracle,
      ((__std_tzdb_get_time_zones oc).1 = none →
        tzAllocFailure oc ∧
        (__std_tzdb_get_time_zones oc).2 = __std_tzdb_error._Success) ∧
      (tzBackendFailure oc →
        ∃ p, (__std_tzdb_get_time_zones oc).1 = some p ∧
          (p.1 = __std_tzdb_error._Icu_error ∨ p.1 = __std_tzdb_error._Win_error))) ∧
    (∀ oc : CZOracle,
      ((__std_tzdb_get_current_zone oc).1 = none →
        czAllocFailure oc ∧
        (__std_tzdb_get_current_zone oc).2 = __std_tzdb_error._Success) ∧
      (czBackendFailure oc →
        ∃ p, (__std_tzdb_get_current_zone oc).1 = some p ∧
          (p.1 = __std_tzdb_error._Icu_error ∨ p.1 = __std_tzdb_error._Win_error))) ∧
    (∀ oc : SysInfoOracle,
      ((__std_tzbd_get_sys_info oc).1 = none →
        sysInfoAllocFailure oc ∧
        (__std_tzbd_get_sys_info oc).2 = __std_tzdb_error._Success) ∧
      (sysInfoBackendFailure oc →
        ∃ p, (__std_tzbd_get_sys_info oc).1 = some p ∧
          (p.1 = __std_tzdb_error._Icu_error ∨ p.1 = __std_tzdb_error._Win_error))) ∧
    (∀ oc : LocalOracle,
      ((__std_tzbd_get_local_info_run oc).1 = none →
        localAllocFailure oc ∧
        (__std_tzbd_get_local_info_run oc).2 = __std_tzdb_error._Success) ∧
      (localBackendFailure oc →
        ∃ p, (__std_tzbd_get_local_info_run oc).1 = some p ∧
          (p.1 = __std_tzdb_error._Icu_error ∨ p.1 = __std_tzdb_error._Win_error))) :=
  ⟨time_zones_err_contract, current_zone_err_contract,
    sys_info_err_contract, local_info_err_contract⟩

/-- Witness for the entry-point error convention: a concrete ucal_open
failure yields a non-null sys-info result tagged _Icu_error, and a concrete
info-allocation failure in get_time_zones yields a null with the error cell
still _Success. -/
theorem entry_points_null_only_on_alloc_failure_witness :
    (∃ p, (__std_tzbd_get_sys_info
        ⟨true, CalOutcome.openFail, GSTO.ok emptySysData⟩).1 = some p ∧
      (p.1 = __std_tzdb_error._Icu_error ∨ p.1 = __std_tzdb_error._Win_error)) ∧
    tzAllocFailure ⟨false, true, true, true, 0, true, true, fun _ => ElemO.unextFail⟩ ∧
    (∃ p, (__std_tzbd_get_local_info_run
        ⟨true, CalOutcome.ok, GSTO.ok ⟨0, 10, 0, 0, some "X"⟩,
          GSTO.icuFail, 5⟩).1 = some p ∧
      (p.1 = __std_tzdb_error._Icu_error ∨ p.1 = __std_tzdb_error._Win_error)) := by
  refine ⟨?_, ?_, ?_⟩
  · exact (entry_points_null_only_on_alloc_failure.2.2.1
      ⟨true, CalOutcome.openFail, GSTO.ok emptySysData⟩).2
      ⟨rfl, Or.inr (Or.inl rfl)⟩
  · exact ((entry_points_null_only_on_alloc_failure.1
      ⟨false, true, true, true, 0, true, true, fun _ => ElemO.unextFail⟩).1 rfl).1
  · exact (entry_points_null_only_on_alloc_failure.2.2.2
      ⟨true, CalOutcome.ok, GSTO.ok ⟨0, 10, 0, 0, some "X"⟩, GSTO.icuFail, 5⟩).2
      ⟨rfl, Or.inr (Or.inr ⟨rfl, Or.inr (Or.inr
        ⟨⟨0, 10, 0, 0, some "X"⟩, rfl, by decide, Or.inl rfl⟩)⟩)⟩

end Tzdb

